import Mathlib

/-!
# SnapDropX core: shallow embedding and verification

This file embeds the request-boundary safety layer of the SnapDropX file
server (`src/snapdropx/security.py` and `src/snapdropx/server.py`) and
proves the specified properties about it.

Modelling conventions:
* A filesystem path is a `List String` of segments of an absolute path
  (`[]` is the filesystem root `/`).  `Path.resolve()` is modelled as the
  purely lexical normalization `normSegs` (the spec frames containment in
  terms of symlink-free lexical normalization).
* Python strings are Lean `String`s; character-level operations work on
  `String.data`.
* Fallible operations return `Except HTTPError`; an `HTTPException` raised
  by the Python code is the `.error` case, carrying status, detail and the
  optional `WWW-Authenticate` challenge header.
* I/O effects (directory existence tests, file writes, timing-safe
  comparisons) are made explicit: the filesystem is an oracle record, file
  writes are collected into a list of written paths, and credential
  comparisons are recorded in an event trace.
-/

/-- An HTTP error signal as raised by `fastapi.HTTPException`:
status code, detail message, and the optional `WWW-Authenticate` header. -/
structure HTTPError where
  status : Nat
  detail : String
  wwwAuthenticate : Option String
deriving DecidableEq

/-- The 403 error raised by `sanitize_path` (security.py line 70). -/
def forbiddenTraversal : HTTPError :=
  ⟨403, "Access denied (path traversal)", none⟩

/-- Python `requested_path.lstrip("/")` (security.py line 64): remove all
leading slash characters. -/
def lstripSlashes (s : String) : String :=
  String.mk (s.data.dropWhile (fun c => c == '/'))

/-- Split a character list on `'/'`, keeping empty segments (the segment
view of a POSIX path string).  `acc` holds the characters of the current
segment read so far. -/
def splitSlashAux : List Char → List Char → List String
  | [], acc => [String.mk acc]
  | c :: cs, acc =>
    if c == '/' then String.mk acc :: splitSlashAux cs []
    else splitSlashAux cs (acc ++ [c])

/-- The segments of a path string, split on `'/'` (empty segments kept;
they are dropped by normalization, as `pathlib` drops them when parsing). -/
def splitSlash (s : String) : List String :=
  splitSlashAux s.data []

/-- One step of lexical path normalization: empty segments and `"."` are
dropped, `".."` removes the last segment (a no-op at the root, as in POSIX
resolution of `/..`), and any other segment is appended. -/
def normStep (acc : List String) (seg : String) : List String :=
  if seg = "" ∨ seg = "." then acc
  else if seg = ".." then acc.dropLast
  else acc ++ [seg]

/-- Lexical normalization of a segment list: the model of
`Path.resolve()` on an absolute path (symlink-free). -/
def normSegs (segs : List String) : List String :=
  segs.foldl normStep []

/-- Model of `sanitize_path` (security.py lines 63-75): strip leading slashes from
the requested path, join it onto the base path and resolve; succeed with
the resolved path iff the resolved base is a segment-wise prefix of it
(`Path.relative_to` succeeds exactly on segment-wise prefixes), else raise
403.  After the strip the requested path is relative, so Python's
`base_path / requested_path` appends its segments. -/
def sanitize_path (basePath : List String) (requestedPath : String) :
    Except HTTPError (List String) :=
  let requested := lstripSlashes requestedPath
  let fullPath := normSegs (basePath ++ splitSlash requested)
  if (normSegs basePath).isPrefixOf fullPath then Except.ok fullPath
  else Except.error forbiddenTraversal

/-- Modelled from the spec's words ("the lexical resolution of `root/p`"):
the segments of `p` written after those of `root`, lexically normalized.
Stated independently of `sanitize_path` so the guard can be compared
against it. -/
def lexicalResolution (root : List String) (p : String) : List String :=
  normSegs (root ++ splitSlash p)

/-- The character rendering of an absolute segment path (used to talk
about raw string prefixes, as opposed to segment-wise prefixes). -/
def pathChars (segs : List String) : List Char :=
  segs.foldl (fun acc s => acc ++ '/' :: s.data) []

/-! ### Lemmas about normalization and the guard -/

theorem normSegs_append (a b : List String) :
    normSegs (a ++ b) = List.foldl normStep (normSegs a) b := by
  simp [normSegs, List.foldl_append]

theorem normStep_empty (acc : List String) : normStep acc "" = acc := by
  simp [normStep]

theorem normSegs_append_empty_cons (b l : List String) :
    normSegs (b ++ "" :: l) = normSegs (b ++ l) := by
  simp [normSegs, List.foldl_append, normStep_empty]

theorem normSegs_append_empty_singleton (b : List String) :
    normSegs (b ++ [""]) = normSegs b := by
  simp [normSegs, List.foldl_append, normStep_empty]

theorem splitSlashAux_slash_cons (cs : List Char) :
    splitSlashAux ('/' :: cs) [] = "" :: splitSlashAux cs [] := by
  simp [splitSlashAux]

theorem strip_resolve_aux (b : List String) :
    ∀ cs : List Char,
      normSegs (b ++ splitSlashAux (cs.dropWhile (fun c => c == '/')) []) =
        normSegs (b ++ splitSlashAux cs []) := by
  intro cs
  induction cs with
  | nil => rfl
  | cons c cs ih =>
    by_cases hc : c = '/'
    · subst hc
      rw [show List.dropWhile (fun c => c == '/') ('/' :: cs) =
            List.dropWhile (fun c => c == '/') cs from by simp [List.dropWhile],
          splitSlashAux_slash_cons, normSegs_append_empty_cons]
      exact ih
    · rw [show List.dropWhile (fun c' => c' == '/') (c :: cs) = c :: cs from by
            simp [List.dropWhile, beq_eq_false_iff_ne.mpr hc]]

/-- Stripping leading slashes from the requested path does not change the
lexical resolution: leading slashes only contribute empty segments. -/
theorem strip_resolve (b : List String) (r : String) :
    normSegs (b ++ splitSlash (lstripSlashes r)) = normSegs (b ++ splitSlash r) :=
  strip_resolve_aux b r.data

theorem isPrefixOf_rfl : ∀ l : List String, l.isPrefixOf l = true := by
  intro l
  induction l with
  | nil => rfl
  | cons a as ih => simp [List.isPrefixOf, ih]

/-- The guard, characterized by the spec-side lexical resolution: it
succeeds with exactly the lexical resolution of `root/p` when the resolved
root is a segment-wise prefix of that resolution, and raises 403
otherwise. -/
theorem sanitize_path_eq (root : List String) (p : String) :
    sanitize_path root p =
      (if (normSegs root).isPrefixOf (lexicalResolution root p) then
        Except.ok (lexicalResolution root p)
      else Except.error forbiddenTraversal) := by
  simp only [sanitize_path, lexicalResolution]
  rw [strip_resolve]

theorem sanitize_path_empty (root : List String) :
    sanitize_path root "" = Except.ok (normSegs root) := by
  have h : lexicalResolution root "" = normSegs root := by
    unfold lexicalResolution splitSlash
    exact normSegs_append_empty_singleton root
  rw [sanitize_path_eq, h, isPrefixOf_rfl]
  simp

/-! ### Claim C1 -/

/-- C1: for every root and requested path string, the guard
(`sanitize_path`) fails with Forbidden if and only if the lexical
resolution of `root/requested` is not a descendant of (or equal to)
`root` — i.e. iff the resolved root is not a segment-wise prefix of that
resolution; otherwise it returns exactly the resolved canonical path, and
the empty requested path resolves to the root itself. -/
theorem sanitize_path_forbidden_iff_escape (root : List String) (p : String) :
    sanitize_path root p =
      (if (normSegs root).isPrefixOf (lexicalResolution root p) then
        Except.ok (lexicalResolution root p)
      else Except.error forbiddenTraversal)
    ∧ sanitize_path root "" = Except.ok (normSegs root) :=
  ⟨sanitize_path_eq root p, sanitize_path_empty root⟩

/-! ### Claim C3 -/

/-- C3: the guard's containment test compares whole path segments, not raw
characters.  In general any requested path whose lexical resolution is not
a segment-wise extension of the root is rejected with Forbidden; in
particular, for root `/srv/data` the request `"../data-other/x"` resolves
to the sibling `/srv/data-other/x`, whose raw character rendering does
extend the characters of `/srv/data`, yet it is rejected — while the
requests resolving to the root itself or strictly inside it succeed. -/
theorem sanitize_path_segment_boundary :
    (∀ root p, (normSegs root).isPrefixOf (lexicalResolution root p) = false →
        sanitize_path root p = Except.error forbiddenTraversal)
    ∧ sanitize_path ["srv", "data"] "../data-other/x" = Except.error forbiddenTraversal
    ∧ lexicalResolution ["srv", "data"] "../data-other/x" = ["srv", "data-other", "x"]
    ∧ (pathChars ["srv", "data"]).isPrefixOf
        (pathChars (lexicalResolution ["srv", "data"] "../data-other/x")) = true
    ∧ sanitize_path ["srv", "data"] "" = Except.ok ["srv", "data"]
    ∧ sanitize_path ["srv", "data"] "reports/q1.txt" =
        Except.ok ["srv", "data", "reports", "q1.txt"] := by
  refine ⟨fun root p h => ?_, by rfl, by decide, by decide, by rfl, by rfl⟩
  rw [sanitize_path_eq, h]
  simp

/-- Witness for C3: the general rejection clause applied at the concrete
root `/w` and request `"../z"`, whose resolution `/z` escapes the root. -/
theorem sanitize_path_segment_boundary_witness :
    (normSegs ["w"]).isPrefixOf (lexicalResolution ["w"] "../z") = false
    ∧ sanitize_path ["w"] "../z" = Except.error forbiddenTraversal :=
  ⟨by decide, sanitize_path_segment_boundary.1 ["w"] "../z" (by decide)⟩

/-! ### Credential gate (security.py, `AuthManager` and `parse_auth_string`) -/

/-- Python truthiness of an optional string: `None` and `""` are falsy. -/
def pyTruthy : Option String → Bool
  | none => false
  | some s => !(s == "")

/-- The `AuthManager` object: configured credentials and the `enabled`
flag computed in `__init__` (security.py line 31). -/
structure AuthManager where
  username : Option String
  password : Option String
  enabled : Bool
deriving DecidableEq

/-- Model of `AuthManager.__init__` (security.py lines 24-31):
`self.enabled = bool(username and password)`. -/
def AuthManager.make (username password : Option String) : AuthManager :=
  ⟨username, password, pyTruthy username && pyTruthy password⟩

/-- Functional model of Python's `secrets.compare_digest`: its value is
string equality; each invocation is recorded as an `AuthEvent` so that the
performed comparisons are visible in the verification trace. -/
def compare_digest (a b : String) : Bool := a == b

/-- One timing-safe comparison performed by the code: an application of
`secrets.compare_digest` to a presented and a configured secret. -/
inductive AuthEvent
  | compareDigest (presented configured : String)
deriving DecidableEq

/-- The presented HTTP Basic credentials. -/
structure HTTPBasicCredentials where
  username : String
  password : String
deriving DecidableEq

/-- The 401 error raised by `verify_credentials` (security.py lines
51-55): detail "Invalid credentials" and the `WWW-Authenticate: Basic`
challenge header. -/
def unauthorizedChallenge : HTTPError :=
  ⟨401, "Invalid credentials", some "Basic"⟩

/-- Model of `AuthManager.verify_credentials` (security.py lines 33-57), with its
comparison trace made explicit.  When the gate is disabled it returns
`True` without comparing anything; otherwise it computes `username_ok`
and `password_ok` (both, unconditionally, each via `compare_digest`) and
raises the fixed 401 challenge unless both hold. -/
def AuthManager.verify_credentials (m : AuthManager)
    (credentials : HTTPBasicCredentials) :
    Except HTTPError Bool × List AuthEvent :=
  if !m.enabled then (Except.ok true, [])
  else
    let username_ok := compare_digest credentials.username (m.username.getD "")
    let password_ok := compare_digest credentials.password (m.password.getD "")
    let events := [AuthEvent.compareDigest credentials.username (m.username.getD ""),
                   AuthEvent.compareDigest credentials.password (m.password.getD "")]
    if !(username_ok && password_ok) then (Except.error unauthorizedChallenge, events)
    else (Except.ok true, events)

/-! ### Claim C4 -/

/-- C4: when credentials are configured (`enabled`), credential
verification performs the timing-safe `compare_digest` comparison on the
username and on the password — both of them, in that order, for every
presented credential pair, so in particular also when the username
comparison already fails: the comparison trace is the same two-event list
regardless of the presented values. -/
theorem verify_credentials_always_compares_both (m : AuthManager)
    (c : HTTPBasicCredentials) (h : m.enabled = true) :
    (m.verify_credentials c).2 =
      [AuthEvent.compareDigest c.username (m.username.getD ""),
       AuthEvent.compareDigest c.password (m.password.getD "")] := by
  simp only [AuthManager.verify_credentials, h]
  by_cases hu : compare_digest c.username (m.username.getD "") &&
      compare_digest c.password (m.password.getD "") <;> simp [hu]

/-- Witness for C4: with configured credentials `u`/`p` and a wrong
username presented, both comparisons are still in the trace. -/
theorem verify_credentials_always_compares_both_witness :
    ((AuthManager.make (some "u") (some "p")).verify_credentials
        ⟨"wronguser", "p"⟩).2 =
      [AuthEvent.compareDigest "wronguser" "u", AuthEvent.compareDigest "p" "p"] :=
  verify_credentials_always_compares_both
    (AuthManager.make (some "u") (some "p")) ⟨"wronguser", "p"⟩ (by decide)

/-! ### Claim C5 -/

/-- C5: when credentials are configured and the presented pair mismatches
(wrong username, wrong password, or both — i.e. the conjunction of the two
comparisons is false), verification rejects with the one fixed
`unauthorizedChallenge` error: status 401, carrying the
`WWW-Authenticate: Basic` challenge indicator.  The rejection value is a
constant independent of which of the two comparisons failed, so it reveals
nothing about which part was wrong. -/
theorem verify_credentials_uniform_unauthorized (m : AuthManager)
    (c : HTTPBasicCredentials) (h : m.enabled = true)
    (hbad : (compare_digest c.username (m.username.getD "") &&
        compare_digest c.password (m.password.getD "")) = false) :
    (m.verify_credentials c).1 = Except.error unauthorizedChallenge := by
  simp [AuthManager.verify_credentials, h, hbad]

/-- Witness for C5: configured `u`/`p`, presented correct username and
wrong password; the result is the fixed 401 challenge. -/
theorem verify_credentials_uniform_unauthorized_witness :
    ((AuthManager.make (some "u") (some "p")).verify_credentials
        ⟨"u", "wrong"⟩).1 = Except.error unauthorizedChallenge :=
  verify_credentials_uniform_unauthorized
    (AuthManager.make (some "u") (some "p")) ⟨"u", "wrong"⟩ (by decide) (by decide)

/-! ### Claim C10 -/

/-- C10: if the `AuthManager` is constructed with only one of
username/password provided, or with either equal to the empty string, the
gate is disabled exactly as if no credentials were configured:
`verify_credentials` returns `True` (with no comparison performed) for
every presented credential pair, including completely wrong ones. -/
theorem auth_disabled_when_credentials_incomplete (u p : Option String)
    (c : HTTPBasicCredentials)
    (h : u = none ∨ u = some "" ∨ p = none ∨ p = some "") :
    (AuthManager.make u p).verify_credentials c = (Except.ok true, []) := by
  have henabled : (AuthManager.make u p).enabled = false := by
    rcases h with h | h | h | h <;> subst h <;> simp [AuthManager.make, pyTruthy]
  simp [AuthManager.verify_credentials, henabled]

/-- Witness for C10: username configured but password empty; a completely
wrong presented pair is accepted. -/
theorem auth_disabled_when_credentials_incomplete_witness :
    (AuthManager.make (some "admin") (some "")).verify_credentials
        ⟨"totally", "wrong"⟩ = (Except.ok true, []) :=
  auth_disabled_when_credentials_incomplete (some "admin") (some "")
    ⟨"totally", "wrong"⟩ (Or.inr (Or.inr (Or.inr rfl)))

/-! ### Auth string parsing (security.py, `parse_auth_string`) -/

/-- Split a character list at the first `':'`: `none` when no colon occurs
(`":" not in auth`), otherwise the characters before and after the first
colon (`auth.split(":", 1)`). -/
def splitOnFirstColon : List Char → Option (List Char × List Char)
  | [] => none
  | c :: cs =>
    if c == ':' then some ([], cs)
    else
      match splitOnFirstColon cs with
      | none => none
      | some (pre, post) => some (c :: pre, post)

/-- Model of `parse_auth_string` (security.py lines 133-141): reject when no colon
is present; split on the first colon only; reject when either part is
empty; otherwise return the pair.  Errors carry the `ValueError`
message. -/
def parse_auth_string (auth : String) : Except String (String × String) :=
  match splitOnFirstColon auth.data with
  | none => Except.error "Auth format must be username:password"
  | some (u, pwd) =>
    let user := String.mk u
    let password := String.mk pwd
    if user == "" || password == "" then
      Except.error "Username/password cannot be empty"
    else Except.ok (user, password)

theorem splitOnFirstColon_none (cs : List Char) (h : ':' ∉ cs) :
    splitOnFirstColon cs = none := by
  induction cs with
  | nil => rfl
  | cons c cs ih =>
    have hc : ¬c = ':' := fun e => h (e ▸ List.mem_cons_self c cs)
    simp only [splitOnFirstColon, beq_eq_false_iff_ne.mpr hc,
      Bool.false_eq_true, if_false]
    rw [ih (fun m => h (List.mem_cons_of_mem c m))]

theorem splitOnFirstColon_append (u p : List Char) (h : ':' ∉ u) :
    splitOnFirstColon (u ++ ':' :: p) = some (u, p) := by
  induction u with
  | nil => simp [splitOnFirstColon]
  | cons c cs ih =>
    have hc : ¬c = ':' := fun e => h (e ▸ List.mem_cons_self c cs)
    simp only [List.cons_append, splitOnFirstColon,
      beq_eq_false_iff_ne.mpr hc, Bool.false_eq_true, if_false, List.append_eq]
    rw [ih (fun m => h (List.mem_cons_of_mem c m))]

theorem string_mk_data (s : String) : String.mk s.data = s := rfl

/-! ### Claim C6 -/

/-- C6: `parse_auth_string` splits its input on the first `':'` only —
`"user:pass"` yields `("user","pass")` and `"user:pass:word"` yields
`("user","pass:word")`; it fails for every input containing no `':'` and
for every input whose part before or after the first `':'` is empty, so
`":pass"`, `"user:"` and `"noseparator"` all fail.  The two quantified
clauses state this for all inputs: a colon-free string is rejected, and
for any colon-free `u` the input `u ++ ":" ++ p` parses to `(u, p)` iff
both parts are nonempty, and errors otherwise. -/
theorem parse_auth_string_first_colon :
    parse_auth_string "user:pass" = Except.ok ("user", "pass")
    ∧ parse_auth_string "user:pass:word" = Except.ok ("user", "pass:word")
    ∧ (∀ s : String, ':' ∉ s.data →
        parse_auth_string s = Except.error "Auth format must be username:password")
    ∧ (∀ u p : String, ':' ∉ u.data →
        parse_auth_string (u ++ ":" ++ p) =
          (if u == "" || p == "" then
            Except.error "Username/password cannot be empty"
          else Except.ok (u, p)))
    ∧ parse_auth_string ":pass" = Except.error "Username/password cannot be empty"
    ∧ parse_auth_string "user:" = Except.error "Username/password cannot be empty"
    ∧ parse_auth_string "noseparator" =
        Except.error "Auth format must be username:password" := by
  refine ⟨by rfl, by rfl, fun s hs => ?_, fun u p hu => ?_, by rfl, by rfl, by rfl⟩
  · unfold parse_auth_string
    rw [splitOnFirstColon_none s.data hs]
  · unfold parse_auth_string
    have hdata : (u ++ ":" ++ p).data = u.data ++ ':' :: p.data := by
      simp [String.data_append]
    rw [hdata, splitOnFirstColon_append u.data p.data hu]

/-- Witness for C6: the quantified clauses applied at `"nocolon"` and at
`"ab" ++ ":" ++ "c:d"` (a password containing a colon). -/
theorem parse_auth_string_first_colon_witness :
    parse_auth_string "nocolon" = Except.error "Auth format must be username:password"
    ∧ parse_auth_string ("ab" ++ ":" ++ "c:d") =
        (if "ab" == "" || "c:d" == "" then
          Except.error "Username/password cannot be empty"
        else Except.ok ("ab", "c:d")) :=
  ⟨parse_auth_string_first_colon.2.2.1 "nocolon" (by decide),
   parse_auth_string_first_colon.2.2.2.1 "ab" "c:d" (by decide)⟩

/-! ### Directory listing (server.py, `SnapDropXServer.list_directory`) -/

/-- One child of the listed directory, as enumerated by
`target_path.iterdir()` (in arbitrary filesystem order): its name, whether
it is a directory, and whether `item.stat()` succeeds (entries whose stat
raises `OSError`/`PermissionError` are skipped). -/
structure DirEntry where
  name : String
  isDir : Bool
  statOk : Bool
deriving DecidableEq

/-- Python code-point comparison `s ≤ t` of two character sequences
(lexicographic, a proper prefix compares smaller). -/
def charListLe : List Char → List Char → Bool
  | [], _ => true
  | _ :: _, [] => false
  | a :: as, b :: bs =>
    if a < b then true
    else if b < a then false
    else charListLe as bs

/-- The second sort-key component `x.name.lower()` (ASCII case folding in
this model). -/
def nameKey (e : DirEntry) : List Char :=
  e.name.data.map Char.toLower

/-- The first sort-key component `not x.is_dir()` as an order rank:
directories rank 0, non-directories rank 1 (Python's `False < True`). -/
def dirRank (e : DirEntry) : Nat :=
  if e.isDir then 0 else 1

/-- The sort order of `sorted(..., key=lambda x: (not x.is_dir(),
x.name.lower()))`: lexicographic on the key tuple. -/
def entryLe (a b : DirEntry) : Prop :=
  dirRank a < dirRank b ∨ (dirRank a = dirRank b ∧ charListLe (nameKey a) (nameKey b) = true)

instance entryLe.decRel : DecidableRel entryLe := fun a b =>
  inferInstanceAs (Decidable (dirRank a < dirRank b ∨
    (dirRank a = dirRank b ∧ charListLe (nameKey a) (nameKey b) = true)))

theorem charListLe_total :
    ∀ as bs : List Char, charListLe as bs = true ∨ charListLe bs as = true := by
  intro as
  induction as with
  | nil => intro bs; left; rfl
  | cons a as ih =>
    intro bs
    cases bs with
    | nil => right; rfl
    | cons b bs =>
      rcases lt_trichotomy a b with h | h | h
      · left; simp [charListLe, h]
      · subst h
        have := ih bs
        simpa [charListLe, lt_irrefl] using this
      · right; simp [charListLe, h]

theorem charListLe_trans :
    ∀ as bs cs : List Char, charListLe as bs = true → charListLe bs cs = true →
      charListLe as cs = true := by
  intro as
  induction as with
  | nil => intro bs cs _ _; rfl
  | cons a as ih =>
    intro bs cs h1 h2
    cases bs with
    | nil => simp [charListLe] at h1
    | cons b bs =>
      cases cs with
      | nil => simp [charListLe] at h2
      | cons c cs =>
        rcases lt_trichotomy a b with hab | hab | hab
        · rcases lt_trichotomy b c with hbc | hbc | hbc
          · simp [charListLe, lt_trans hab hbc]
          · subst hbc; simp [charListLe, hab]
          · simp [charListLe, asymm hbc, hbc] at h2
        · subst hab
          rcases lt_trichotomy a c with hac | hac | hac
          · simp [charListLe, hac]
          · subst hac
            simp only [charListLe, lt_irrefl, if_false] at h1 h2 ⊢
            exact ih bs cs h1 h2
          · simp [charListLe, asymm hac, hac] at h2
        · simp [charListLe, asymm hab, hab] at h1

instance entryLe.total : IsTotal DirEntry entryLe := by
  constructor
  intro a b
  rcases Nat.lt_trichotomy (dirRank a) (dirRank b) with h | h | h
  · exact Or.inl (Or.inl h)
  · rcases charListLe_total (nameKey a) (nameKey b) with hc | hc
    · exact Or.inl (Or.inr ⟨h, hc⟩)
    · exact Or.inr (Or.inr ⟨h.symm, hc⟩)
  · exact Or.inr (Or.inl h)

instance entryLe.trans : IsTrans DirEntry entryLe := by
  constructor
  intro a b c hab hbc
  rcases hab with hab | ⟨hab, hab'⟩
  · rcases hbc with hbc | ⟨hbc, _⟩
    · exact Or.inl (lt_trans hab hbc)
    · exact Or.inl (hbc ▸ hab)
  · rcases hbc with hbc | ⟨hbc, hbc'⟩
    · exact Or.inl (hab ▸ hbc)
    · exact Or.inr ⟨hab.trans hbc, charListLe_trans _ _ _ hab' hbc'⟩

/-- Model of `list_directory` (server.py lines 127-144), restricted to the entry
sequence it produces: the children are sorted by the stable
`sorted(target_path.iterdir(), key=lambda x: (not x.is_dir(),
x.name.lower()))` and entries whose stat fails are skipped. -/
def list_directory (entries : List DirEntry) : List DirEntry :=
  (List.insertionSort entryLe entries).filter (fun e => e.statOk)

/-! ### Claim C7 -/

/-- C7: for every directory listing, the returned sequence is a
permutation of the stat-able entries, ordered by `entryLe`: all
directories before all non-directories (`dirRank`), and within each group
by case-insensitive lexical order of the entry name (`nameKey`).  In
particular, a directory containing `b.txt`, `A` (a directory) and `a.txt`
is listed as `[A, a.txt, b.txt]`. -/
theorem list_directory_ordering (l : List DirEntry) :
    List.Sorted entryLe (list_directory l)
    ∧ (list_directory l).Perm (l.filter (fun e => e.statOk))
    ∧ list_directory
        [⟨"b.txt", false, true⟩, ⟨"A", true, true⟩, ⟨"a.txt", false, true⟩] =
        [⟨"A", true, true⟩, ⟨"a.txt", false, true⟩, ⟨"b.txt", false, true⟩] :=
  ⟨List.Pairwise.filter _ (List.sorted_insertionSort entryLe l),
   List.Perm.filter _ (List.perm_insertionSort entryLe l),
   by decide⟩

/-! ### Upload ingestion (server.py, `SnapDropXServer.upload_files`) -/

/-- One uploaded file of the batch: the client-supplied filename, the
payload bytes, and the environment outcome of writing it to disk
(`False` models an `OSError` raised while opening/writing/stat-ing,
which the per-file `except` clause catches). -/
structure PyFile where
  filename : String
  content : List Nat
  writeOk : Bool
deriving DecidableEq

/-- The filesystem oracle consulted by `upload_files`:
`target_dir.exists()` and `target_dir.is_dir()`. -/
structure FSDir where
  pathExists : List String → Bool
  isDir : List String → Bool

/-- Python `PurePath(s).name`: the final path component after `pathlib`
parsing, which drops empty segments and single dots but keeps `".."`
components; the empty string when no component remains. -/
def pathlibName (s : String) : String :=
  (((splitSlash s).filter (fun seg => !(seg == "") && !(seg == "."))).getLast?).getD ""

/-- Python `s.startswith(".")`: the first character is a dot. -/
def startsWithDot (s : String) : Bool :=
  match s.data with
  | [] => false
  | c :: _ => c == '.'

/-- The 400 error raised when the upload target is missing or not a
directory (server.py lines 197-201). -/
def invalidTarget : HTTPError :=
  ⟨400, "Invalid upload directory", none⟩

/-- The per-file outcome of the upload loop body (server.py lines
205-225): either a success entry `(safe_name, stored size)` or an error
entry `(supplied filename, message)`. -/
inductive FileOutcome
  | ok (name : String) (size : Nat)
  | err (name : String) (msg : String)
deriving DecidableEq

/-- The loop body for one file: derive `safe_name = Path(filename).name`;
reject empty or dot-prefixed names with `ValueError("Invalid filename")`;
otherwise the chunked write stores the whole payload and the success entry
records `file_path.stat().st_size`, unless the environment makes the write
raise, which the `except` clause turns into an error entry. -/
def processFile (f : PyFile) : FileOutcome :=
  let safe := pathlibName f.filename
  if safe == "" || startsWithDot safe then FileOutcome.err f.filename "Invalid filename"
  else if f.writeOk then FileOutcome.ok safe f.content.length
  else FileOutcome.err f.filename "write error"

/-- The paths touched on disk for one file: nothing when the name is
rejected (the `ValueError` is raised before `open`), and exactly
`target_dir / safe_name` otherwise (`open(file_path, "wb")` creates the
file whether or not the subsequent write completes). -/
def fileWrites (targetDir : List String) (f : PyFile) : List (List String) :=
  let safe := pathlibName f.filename
  if safe == "" || startsWithDot safe then []
  else [targetDir ++ [safe]]

/-- The success entry contributed by one file, if any. -/
def uploadedEntry (f : PyFile) : Option (String × Nat) :=
  match processFile f with
  | FileOutcome.ok n s => some (n, s)
  | FileOutcome.err _ _ => none

/-- The error entry contributed by one file, if any. -/
def errorEntry (f : PyFile) : Option (String × String) :=
  match processFile f with
  | FileOutcome.ok _ _ => none
  | FileOutcome.err n m => some (n, m)

/-- The batch result dict returned by `upload_files` (server.py lines
227-232): `uploaded`, `errors`, `success`, `failed`. -/
structure UploadOutcome where
  uploaded : List (String × Nat)
  errors : List (String × String)
  success : Nat
  failed : Nat
deriving DecidableEq

/-- One iteration of the upload loop, threading the `uploaded` and
`errors` accumulators and the list of written paths. -/
def uploadStep (targetDir : List String)
    (acc : List (String × Nat) × List (String × String) × List (List String))
    (f : PyFile) :
    List (String × Nat) × List (String × String) × List (List String) :=
  match processFile f with
  | FileOutcome.ok n s => (acc.1 ++ [(n, s)], acc.2.1, acc.2.2 ++ fileWrites targetDir f)
  | FileOutcome.err n m => (acc.1, acc.2.1 ++ [(n, m)], acc.2.2 ++ fileWrites targetDir f)

/-- Model of `upload_files` (server.py lines 192-232): guard the target path, fail
the whole batch with 400 when it does not exist or is not a directory
(before touching any file), then process every file in order, and return
the batch summary with `success = len(uploaded)` and
`failed = len(errors)`.  The second component collects every path written
on disk during the call. -/
def upload_files (fs : FSDir) (servePath : List String) (files : List PyFile)
    (path : String) : Except HTTPError UploadOutcome × List (List String) :=
  match sanitize_path servePath path with
  | Except.error e => (Except.error e, [])
  | Except.ok targetDir =>
    if !fs.pathExists targetDir || !fs.isDir targetDir then
      (Except.error invalidTarget, [])
    else
      let r := files.foldl (uploadStep targetDir) ([], [], [])
      (Except.ok ⟨r.1, r.2.1, r.1.length, r.2.1.length⟩, r.2.2)

/-! ### Lemmas about the upload loop -/

theorem uploadStep_foldl (targetDir : List String) :
    ∀ (files : List PyFile) ups errs ws,
      files.foldl (uploadStep targetDir) (ups, errs, ws) =
        (ups ++ files.filterMap uploadedEntry,
         errs ++ files.filterMap errorEntry,
         ws ++ files.flatMap (fileWrites targetDir)) := by
  intro files
  induction files with
  | nil => intro ups errs ws; simp
  | cons f fs ih =>
    intro ups errs ws
    rw [List.foldl_cons]
    cases h : processFile f with
    | ok n s =>
      rw [show uploadStep targetDir (ups, errs, ws) f =
            (ups ++ [(n, s)], errs, ws ++ fileWrites targetDir f) from by
          simp [uploadStep, h]]
      rw [ih]
      simp [uploadedEntry, errorEntry, h]
    | err n m =>
      rw [show uploadStep targetDir (ups, errs, ws) f =
            (ups, errs ++ [(n, m)], ws ++ fileWrites targetDir f) from by
          simp [uploadStep, h]]
      rw [ih]
      simp [uploadedEntry, errorEntry, h]

theorem entry_count (files : List PyFile) :
    (files.filterMap uploadedEntry).length + (files.filterMap errorEntry).length =
      files.length := by
  induction files with
  | nil => rfl
  | cons f fs ih =>
    cases h : processFile f with
    | ok n s =>
      simp only [List.filterMap_cons, uploadedEntry, errorEntry, h,
        List.length_cons]
      omega
    | err n m =>
      simp only [List.filterMap_cons, uploadedEntry, errorEntry, h,
        List.length_cons]
      omega

theorem splitSlashAux_no_slash :
    ∀ (cs acc : List Char), '/' ∉ acc →
      ∀ s ∈ splitSlashAux cs acc, '/' ∉ s.data := by
  intro cs
  induction cs with
  | nil =>
    intro acc hacc s hs
    simp only [splitSlashAux, List.mem_singleton] at hs
    subst hs
    exact hacc
  | cons c cs ih =>
    intro acc hacc s hs
    by_cases hc : c = '/'
    · subst hc
      simp only [splitSlashAux, beq_self_eq_true, if_true, List.mem_cons] at hs
      rcases hs with hs | hs
      · subst hs; exact hacc
      · exact ih [] (by simp) s hs
    · rw [show splitSlashAux (c :: cs) acc = splitSlashAux cs (acc ++ [c]) from by
            simp [splitSlashAux, beq_eq_false_iff_ne.mpr hc]] at hs
      refine ih (acc ++ [c]) ?_ s hs
      intro hmem
      rcases List.mem_append.mp hmem with hmem | hmem
      · exact hacc hmem
      · exact hc (List.mem_singleton.mp hmem).symm

/-- The basename extracted by `PurePath(...).name` never contains a path
separator. -/
theorem pathlibName_no_slash (s : String) : '/' ∉ (pathlibName s).data := by
  unfold pathlibName
  cases h : ((splitSlash s).filter (fun seg => !(seg == "") && !(seg == "."))).getLast? with
  | none => simp [h]
  | some x =>
    simp only [h, Option.getD_some]
    exact splitSlashAux_no_slash s.data [] (by simp) x
      (List.mem_of_mem_filter (List.mem_of_mem_getLast? h))

/-- A filesystem oracle on which every path exists and is a directory. -/
def fsAll : FSDir := ⟨fun _ => true, fun _ => true⟩

/-- A filesystem oracle on which no path exists. -/
def fsNone : FSDir := ⟨fun _ => false, fun _ => false⟩

/-- A three-file demonstration batch: a valid file, a dot-prefixed name,
and a file whose disk write raises. -/
def demoFiles : List PyFile :=
  [⟨"good.txt", [1, 2], true⟩, ⟨".bad", [3], true⟩, ⟨"fail.txt", [4], false⟩]

/-- The batch outcome of `demoFiles`. -/
def demoOut : UploadOutcome :=
  ⟨[("good.txt", 2)], [(".bad", "Invalid filename"), ("fail.txt", "write error")], 1, 2⟩

/-- The paths written while processing `demoFiles` under root `/r`. -/
def demoWrites : List (List String) := [["r", "good.txt"], ["r", "fail.txt"]]

/-! ### Claim C8 -/

/-- C8: for every upload batch that passes the target checks, a failure on
one file (invalid name or write error) is recorded in that file's error
entry and does not abort the remaining files: the uploaded and error lists
are exactly the per-file outcomes of every submitted file (`filterMap`
over the batch), the summary's `success` equals the number of success
entries, `failed` equals the number of error entries, and
`success + failed` equals the number of files submitted. -/
theorem upload_batch_isolation_counts (fs : FSDir) (servePath : List String)
    (files : List PyFile) (path : String) (out : UploadOutcome)
    (ws : List (List String))
    (h : upload_files fs servePath files path = (Except.ok out, ws)) :
    out.uploaded = files.filterMap uploadedEntry
    ∧ out.errors = files.filterMap errorEntry
    ∧ out.success = out.uploaded.length
    ∧ out.failed = out.errors.length
    ∧ out.success + out.failed = files.length := by
  unfold upload_files at h
  split at h
  next e heq =>
    rw [Prod.mk.injEq] at h
    exact absurd h.1 (by simp)
  next targetDir heq =>
    split at h
    next hb =>
      rw [Prod.mk.injEq] at h
      exact absurd h.1 (by simp)
    next hb =>
      simp only [uploadStep_foldl targetDir files [] [] [], List.nil_append,
        Prod.mk.injEq, Except.ok.injEq] at h
      obtain ⟨h1, h2⟩ := h
      subst h1
      exact ⟨rfl, rfl, rfl, rfl, entry_count files⟩

/-- Witness for C8: the theorem applied to the concrete `demoFiles` batch,
whose middle file is rejected and whose last write fails while the first
file still succeeds. -/
theorem upload_batch_isolation_counts_witness :
    upload_files fsAll ["r"] demoFiles "" = (Except.ok demoOut, demoWrites)
    ∧ (demoOut.uploaded = demoFiles.filterMap uploadedEntry
      ∧ demoOut.errors = demoFiles.filterMap errorEntry
      ∧ demoOut.success = demoOut.uploaded.length
      ∧ demoOut.failed = demoOut.errors.length
      ∧ demoOut.success + demoOut.failed = demoFiles.length) :=
  ⟨by rfl,
   upload_batch_isolation_counts fsAll ["r"] demoFiles "" demoOut demoWrites (by rfl)⟩

/-! ### Claim C9 -/

/-- C9: if the guarded upload target path does not exist or is not a
directory, the whole batch fails with the 400 `invalidTarget` error and
the list of written paths is empty — no file of the batch is written, the
check happening before any filesystem write. -/
theorem upload_invalid_target_no_writes (fs : FSDir) (servePath : List String)
    (files : List PyFile) (path : String) (targetDir : List String)
    (hguard : sanitize_path servePath path = Except.ok targetDir)
    (hbad : fs.pathExists targetDir = false ∨ fs.isDir targetDir = false) :
    upload_files fs servePath files path = (Except.error invalidTarget, []) := by
  unfold upload_files
  split
  next e heq => rw [heq] at hguard; exact absurd hguard (by simp)
  next td heq =>
    rw [heq] at hguard
    injection hguard with hguard
    subst hguard
    have hcond : (!fs.pathExists td || !fs.isDir td) = true := by
      rcases hbad with h | h <;> simp [h]
    rw [hcond]
    simp

/-- Witness for C9: a filesystem on which the resolved target `/r` does
not exist; the batch fails with 400 and nothing is written. -/
theorem upload_invalid_target_no_writes_witness :
    (sanitize_path ["r"] "" = Except.ok ["r"]
      ∧ (fsNone.pathExists ["r"] = false ∨ fsNone.isDir ["r"] = false))
    ∧ upload_files fsNone ["r"] demoFiles "" = (Except.error invalidTarget, []) :=
  ⟨⟨by rfl, Or.inl rfl⟩,
   upload_invalid_target_no_writes fsNone ["r"] demoFiles "" ["r"] (by rfl) (Or.inl rfl)⟩

/-! ### Claim C2 -/

/-- C2 counterexample: uploading a file whose supplied filename is
`"../evil.txt"` does NOT produce a per-file InvalidFilename error entry.
`Path("../evil.txt").name` is the basename `"evil.txt"`, which is neither
empty nor dot-prefixed, so the file is stored as a success entry: the
batch result has `errors = []`, `failed = 0`, and one success entry
`("evil.txt", 2)`, with the single write landing inside the target
directory. -/
theorem upload_parent_name_no_error_entry :
    upload_files fsAll ["root"] [⟨"../evil.txt", [104, 105], true⟩] "" =
      (Except.ok ⟨[("evil.txt", 2)], [], 1, 0⟩, [["root", "evil.txt"]]) := by
  rfl

/-- C2 (amended): uploading a file named `"../evil.txt"` stores it under
its basename `"evil.txt"` inside the target directory as a success entry
(no per-file error entry is produced); and in general no file is ever
written outside the target directory: every written path is
`targetDir/name` for the guarded target directory and a single nonempty,
non-dot-prefixed, separator-free basename `name`. -/
theorem upload_basename_containment :
    (upload_files fsAll ["root"] [⟨"../evil.txt", [104, 105], true⟩] "" =
      (Except.ok ⟨[("evil.txt", 2)], [], 1, 0⟩, [["root", "evil.txt"]]))
    ∧ (∀ (fs : FSDir) (servePath : List String) (files : List PyFile)
        (path : String) (res : Except HTTPError UploadOutcome)
        (ws : List (List String)),
        upload_files fs servePath files path = (res, ws) →
        ∀ w ∈ ws, ∃ targetDir name,
          sanitize_path servePath path = Except.ok targetDir
          ∧ w = targetDir ++ [name]
          ∧ (name == "") = false
          ∧ startsWithDot name = false
          ∧ '/' ∉ name.data) := by
  refine ⟨by rfl, ?_⟩
  intro fs servePath files path res ws h w hw
  unfold upload_files at h
  split at h
  next e heq =>
    rw [Prod.mk.injEq] at h
    obtain ⟨h1, h2⟩ := h
    subst h2
    exact absurd hw (List.not_mem_nil w)
  next targetDir heq =>
    split at h
    next hb =>
      rw [Prod.mk.injEq] at h
      obtain ⟨h1, h2⟩ := h
      subst h2
      exact absurd hw (List.not_mem_nil w)
    next hb =>
      simp only [uploadStep_foldl targetDir files [] [] [], List.nil_append,
        Prod.mk.injEq, Except.ok.injEq] at h
      obtain ⟨h1, h2⟩ := h
      subst h2
      obtain ⟨f, _, hwf⟩ := List.mem_flatMap.mp hw
      unfold fileWrites at hwf
      cases hname : pathlibName f.filename == "" || startsWithDot (pathlibName f.filename) with
      | true =>
        simp only [hname, if_true] at hwf
        exact absurd hwf (List.not_mem_nil w)
      | false =>
        simp only [hname, Bool.false_eq_true, if_false, List.mem_singleton] at hwf
        obtain ⟨hne, hnd⟩ := Bool.or_eq_false_iff.mp hname
        exact ⟨targetDir, pathlibName f.filename, heq, hwf, hne, hnd,
          pathlibName_no_slash f.filename⟩

/-- Witness for C2 (amended): the containment clause applied to the single
write performed for the `"../evil.txt"` upload. -/
theorem upload_basename_containment_witness :
    ∃ targetDir name,
      sanitize_path ["root"] "" = Except.ok targetDir
      ∧ ["root", "evil.txt"] = targetDir ++ [name]
      ∧ (name == "") = false
      ∧ startsWithDot name = false
      ∧ '/' ∉ name.data :=
  upload_basename_containment.2 fsAll ["root"] [⟨"../evil.txt", [104, 105], true⟩] ""
    (Except.ok ⟨[("evil.txt", 2)], [], 1, 0⟩) [["root", "evil.txt"]] (by rfl)
    ["root", "evil.txt"] (by simp)
